import Mathlib

/-!
Shallow embedding of the `jwti` library (class `Jwti`, file `src/index.ts`) and
proofs about its invalidation registry and verification decision engine.

Conventions used by the embedding:
* JavaScript numbers used as instants (`+new Date() / 1000`, `iat` claims) are
  modelled as `Int`; only ordering, subtraction and comparison with zero are
  performed on them by the code, so integer instants are faithful to the
  decision logic (an instant carries sub-second precision, think of it as
  milliseconds).
* The Redis store is modelled as `KV`: a map from string keys to values plus,
  per key, a flag telling whether a `get`/`set`/`del` call on that key throws a
  store error.  Values are stored by the code as decimal strings; the decimal
  rendering of a number is always a nonempty (hence JS-truthy) string, so we
  keep the parsed numeric value directly.
* Fallible operations return `Except Unit _`; a `try/catch` in the source
  becomes a `match` that maps `Except.error` to the caught-and-logged result.
* JavaScript truthiness is made explicit by small `js...` helper functions.
-/

mutual
/-- JSON value, used to model the `Object` identifiers the library accepts.
Object fields keep their insertion order, exactly as `JSON.stringify` sees
them. -/
inductive Json where
  | str : String → Json
  | num : Int → Json
  | bool : Bool → Json
  | null : Json
  | arr : JsonArr → Json
  | obj : JsonObj → Json
deriving Repr
/-- Ordered list of elements of a JSON array. -/
inductive JsonArr where
  | nil : JsonArr
  | cons : Json → JsonArr → JsonArr
deriving Repr
/-- Ordered list of fields of a JSON object (insertion order). -/
inductive JsonObj where
  | nil : JsonObj
  | cons : String → Json → JsonObj → JsonObj
deriving Repr
end

/-- Fields of a `JsonObj` as a Lean list, used to state permutation
(semantic-equality) facts about objects. -/
def JsonObj.toList : JsonObj → List (String × Json)
  | .nil => []
  | .cons k v rest => (k, v) :: rest.toList

/-- Escaping of `"` and `\` performed by `JSON.stringify` on string data
(escapes of control characters are elided; no identifier in this development
contains one). -/
def escapeChars : List Char → List Char
  | [] => []
  | c :: rest =>
      (if c = '\\' then ['\\', '\\'] else if c = '\"' then ['\\', '\"'] else [c]) ++
        escapeChars rest

/-- String form of `JSON.stringify` escaping. -/
def jsonEscape (s : String) : String := String.mk (escapeChars s.data)

/-- Decimal digit character. -/
def digitChar : Nat → Char
  | 0 => '0' | 1 => '1' | 2 => '2' | 3 => '3' | 4 => '4'
  | 5 => '5' | 6 => '6' | 7 => '7' | 8 => '8' | _ => '9'

/-- Decimal rendering of a natural number, fuelled so that it reduces by
structural recursion (the fuel `n + 1` always suffices). -/
def natToStrAux : Nat → Nat → String
  | 0, _ => ""
  | fuel + 1, n =>
      if n < 10 then String.singleton (digitChar n)
      else natToStrAux fuel (n / 10) ++ String.singleton (digitChar (n % 10))

/-- Decimal rendering of a natural number. -/
def natToStr (n : Nat) : String := natToStrAux (n + 1) n

/-- Decimal rendering of an integer, as JavaScript renders integral numbers. -/
def intToStr : Int → String
  | .ofNat n => natToStr n
  | .negSucc n => "-" ++ natToStr (n + 1)

mutual
/-- Embedding of `JSON.stringify`: deterministic serialization that emits
object fields in their insertion order (JavaScript does not sort keys). -/
def jsonStringify : Json → String
  | .str s => "\"" ++ jsonEscape s ++ "\""
  | .num n => intToStr n
  | .bool b => if b then "true" else "false"
  | .null => "null"
  | .arr xs => "[" ++ jsonArrBody xs ++ "]"
  | .obj fs => "\x7b" ++ jsonObjBody fs ++ "\x7d"
/-- Comma-separated serialization of array elements. -/
def jsonArrBody : JsonArr → String
  | .nil => ""
  | .cons x .nil => jsonStringify x
  | .cons x (.cons y rest) => jsonStringify x ++ "," ++ jsonArrBody (.cons y rest)
/-- Comma-separated serialization of object fields, in insertion order. -/
def jsonObjBody : JsonObj → String
  | .nil => ""
  | .cons k v .nil => "\"" ++ jsonEscape k ++ "\":" ++ jsonStringify v
  | .cons k v (.cons k2 v2 rest) =>
      "\"" ++ jsonEscape k ++ "\":" ++ jsonStringify v ++ "," ++
        jsonObjBody (.cons k2 v2 rest)
end

/-- Identifier accepted for `user` and `client`: `string | number | Object`
(`src/interfaces.ts`, `JwtiParams`). -/
inductive Identifier where
  | str : String → Identifier
  | num : Int → Identifier
  | obj : Json → Identifier
deriving Repr

/-- Canonical string form of an identifier, as computed at every use site by
`typeof x === 'string' ? x : JSON.stringify(x)` (numbers and objects both go
through `JSON.stringify`). -/
def identifierKey : Identifier → String
  | .str s => s
  | .num n => jsonStringify (.num n)
  | .obj j => jsonStringify j

/-- JavaScript truthiness of an identifier value: empty strings and the number
zero are falsy, objects are truthy. -/
def jsTruthyIdentifier : Identifier → Bool
  | .str s => decide (s ≠ "")
  | .num n => decide (n ≠ 0)
  | .obj j =>
      match j with
      | .str s => decide (s ≠ "")
      | .num n => decide (n ≠ 0)
      | .bool b => b
      | .null => false
      | .arr _ => true
      | .obj _ => true

/-- JavaScript truthiness of an optional identifier (`undefined`/`null` are
falsy). -/
def jsTruthyIdOpt : Option Identifier → Bool
  | none => false
  | some i => jsTruthyIdentifier i

/-- JavaScript truthiness of a `number | null` value: `null` and `0` are
falsy. -/
def jsTruthyNumOpt : Option Int → Bool
  | none => false
  | some v => decide (v ≠ 0)

/-- JavaScript `a || b` on `number | undefined` values (`0` is falsy and falls
through to `b`). -/
def jsNumOr (a b : Option Int) : Option Int :=
  match a with
  | some v => if v = 0 then b else some v
  | none => b

/-- State of the external Redis store: the stored numeric value per key, plus
per-key fault flags saying whether a `get`/`set`/`del` on that key raises a
store error. -/
structure KV where
  data : String → Option Int
  getFail : String → Bool
  setFail : String → Bool
  delFail : String → Bool

/-- Store with no records and no faults. -/
def emptyKV : KV :=
  ⟨fun _ => none, fun _ => false, fun _ => false, fun _ => false⟩

/-- Store `kv` with `k` bound to `v` (the effect of a successful `set`). -/
def setKey (kv : KV) (k : String) (v : Int) : KV :=
  { kv with data := fun k2 => if k2 = k then some v else kv.data k2 }

/-- Store `kv` with `k` removed (the effect of a successful `del`). -/
def eraseKey (kv : KV) (k : String) : KV :=
  { kv with data := fun k2 => if k2 = k then none else kv.data k2 }

/-- The store's `get`: returns the value under `k`, or raises a store error
when the fault flag for `k` is set. -/
def redisGet (kv : KV) (k : String) : Except Unit (Option Int) :=
  if kv.getFail k then Except.error () else Except.ok (kv.data k)

/-- The store's `set`: binds `k` to `v`, or raises a store error. -/
def redisSet (kv : KV) (k : String) (v : Int) : Except Unit KV :=
  if kv.setFail k then Except.error () else Except.ok (setKey kv k v)

/-- The store's `del`: removes `k`, or raises a store error. -/
def redisDel (kv : KV) (k : String) : Except Unit KV :=
  if kv.delFail k then Except.error () else Except.ok (eraseKey kv k)

/-- Canonical store key of a user-scope invalidation:
`user::` followed by the canonical identifier form (part_002 line 30). -/
def userInvalidationKey (user : Identifier) : String :=
  "user::" ++ identifierKey user

/-- Store key computed by the client-scope helpers of the source: they reuse
the `user::` prefix (part_002 lines 41, 93 and 161 all build
`` `user::${clientKey}` ``). -/
def clientInvalidationKey (client : Identifier) : String :=
  "user::" ++ identifierKey client

/-- Canonical store key of a user-plus-client invalidation
(part_002 line 54). -/
def userClientInvalidationKey (user client : Identifier) : String :=
  "user::" ++ identifierKey user ++ "::client::" ++ identifierKey client

/-- Modelled from the spec: the client-scope key the specification prescribes,
`"client::" + canonical(client)`, stated here only to compare it with the key
the source actually derives. -/
def specClientInvalidationKey (client : Identifier) : String :=
  "client::" ++ identifierKey client

/-- Embedding of `createTokenInvalidation` (part_002 lines 20-23): writes the
current instant under the raw token string; a `set` failure propagates. -/
def createTokenInvalidation (kv : KV) (token : String) (now : Int) : Except Unit KV :=
  redisSet kv token now

/-- Embedding of `createUserInvalidation` (part_002 lines 25-33): writes the
current instant under `user::` plus the canonical user key; a `set` failure
propagates. -/
def createUserInvalidation (kv : KV) (user : Identifier) (now : Int) : Except Unit KV :=
  redisSet kv (userInvalidationKey user) now

/-- Embedding of `createClientInvalidation` (part_002 lines 35-44): writes the
current instant under `user::` plus the canonical client key (the source
reuses the `user::` prefix here); a `set` failure propagates. -/
def createClientInvalidation (kv : KV) (client : Identifier) (now : Int) : Except Unit KV :=
  redisSet kv (clientInvalidationKey client) now

/-- Embedding of `createUserClientInvalidation` (part_002 lines 46-57). -/
def createUserClientInvalidation (kv : KV) (user client : Identifier) (now : Int) :
    Except Unit KV :=
  redisSet kv (userClientInvalidationKey user client) now

/-- Embedding of `getTokenInvalidationTime` (part_002 lines 59-69): a store
error is caught, logged and turned into `null`; a present value (a nonempty
decimal string) is parsed back to its number. -/
def getTokenInvalidationTime (kv : KV) (token : String) : Option Int :=
  match redisGet kv token with
  | Except.error _ => none
  | Except.ok o => o

/-- Embedding of `getUserInvalidationTime` (part_002 lines 71-85): reads
`user::` plus the canonical user key, catching store errors as `null`. -/
def getUserInvalidationTime (kv : KV) (user : Identifier) : Option Int :=
  match redisGet kv (userInvalidationKey user) with
  | Except.error _ => none
  | Except.ok o => o

/-- Embedding of `getClientInvalidationTime` (part_002 lines 87-102): reads
`user::` plus the canonical client key (the source reuses the `user::`
prefix), catching store errors as `null`. -/
def getClientInvalidationTime (kv : KV) (client : Identifier) : Option Int :=
  match redisGet kv (clientInvalidationKey client) with
  | Except.error _ => none
  | Except.ok o => o

/-- Embedding of `getUserClientInvalidationTime` (part_002 lines 104-121). -/
def getUserClientInvalidationTime (kv : KV) (user client : Identifier) : Option Int :=
  match redisGet kv (userClientInvalidationKey user client) with
  | Except.error _ => none
  | Except.ok o => o

/-- Embedding of `revertTokenInvalidation` (part_002 lines 123-126): the `get`
is not wrapped in `try/catch`, so a `get` failure propagates; a present value
(a nonempty string, hence truthy) triggers a `del`, whose failure also
propagates, and the call returns `true`; otherwise it returns `false`. -/
def revertTokenInvalidation (kv : KV) (token : String) : Except Unit (Bool × KV) := do
  let invalidationTime ← redisGet kv token
  match invalidationTime with
  | some _ => do
      let kv2 ← redisDel kv token
      Except.ok (true, kv2)
  | none => Except.ok (false, kv)

/-- Embedding of `removeUserClientInvalidation` (part_002 lines 128-141): the
`del` is wrapped in `try/catch`, so a store error is swallowed and the store is
left as it was. -/
def removeUserClientInvalidation (kv : KV) (user client : Identifier) : KV :=
  match redisDel kv (userClientInvalidationKey user client) with
  | Except.error _ => kv
  | Except.ok kv2 => kv2

/-- Embedding of `removeUserInvalidation` (part_002 lines 143-153): the `del`
is wrapped in `try/catch`, so a store error is swallowed. -/
def removeUserInvalidation (kv : KV) (user : Identifier) : KV :=
  match redisDel kv (userInvalidationKey user) with
  | Except.error _ => kv
  | Except.ok kv2 => kv2

/-- Embedding of `removeClientInvalidation` (part_002 lines 155-166): deletes
the `user::`-prefixed client key, swallowing store errors. -/
def removeClientInvalidation (kv : KV) (client : Identifier) : KV :=
  match redisDel kv (clientInvalidationKey client) with
  | Except.error _ => kv
  | Except.ok kv2 => kv2

/-- Embedding of `revertUserClientInvalidation` (part_002 lines 168-176): the
looked-up value is tested for JavaScript truthiness (`null` and `0` are
falsy); when truthy the record is removed (errors swallowed) and `true` is
returned. -/
def revertUserClientInvalidation (kv : KV) (user client : Identifier) : Bool × KV :=
  if jsTruthyNumOpt (getUserClientInvalidationTime kv user client) then
    (true, removeUserClientInvalidation kv user client)
  else (false, kv)

/-- Embedding of `revertUserInvalidation` (part_002 lines 178-185). -/
def revertUserInvalidation (kv : KV) (user : Identifier) : Bool × KV :=
  if jsTruthyNumOpt (getUserInvalidationTime kv user) then
    (true, removeUserInvalidation kv user)
  else (false, kv)

/-- Embedding of `revertClientInvalidation` (part_002 lines 187-194). -/
def revertClientInvalidation (kv : KV) (client : Identifier) : Bool × KV :=
  if jsTruthyNumOpt (getClientInvalidationTime kv client) then
    (true, removeClientInvalidation kv client)
  else (false, kv)

/-- Argument of `invalidate` and `revert`: either a raw token string or a
params object carrying optional `user` and `client` identifiers (`JwtiParams`
without `precise`). -/
structure JwtiParams where
  user : Option Identifier
  client : Option Identifier

/-- Dispatch of the `token | params` overloads of `invalidate`/`revert`. -/
inductive JwtiArg where
  | token : String → JwtiArg
  | params : JwtiParams → JwtiArg

/-- Embedding of `jwtiParamExists` (part_002 lines 346-350):
`param !== null && param !== undefined`; note that `0` and `""` do exist. -/
def jwtiParamExists (param : Option Identifier) : Bool :=
  param.isSome

/-- Embedding of `revert` (part_002 lines 215-235): a string argument reverts
the token scope; otherwise the params are dispatched on JavaScript
*truthiness* (`if (user && client)`, `if (user)`, `if (client)`), falling
through to `false` with the store untouched. -/
def revert (kv : KV) (arg : JwtiArg) : Except Unit (Bool × KV) :=
  match arg with
  | .token s => revertTokenInvalidation kv s
  | .params p =>
      if jsTruthyIdOpt p.user && jsTruthyIdOpt p.client then
        match p.user, p.client with
        | some u, some c => Except.ok (revertUserClientInvalidation kv u c)
        | _, _ => Except.ok (false, kv)
      else if jsTruthyIdOpt p.user then
        match p.user with
        | some u => Except.ok (revertUserInvalidation kv u)
        | none => Except.ok (false, kv)
      else if jsTruthyIdOpt p.client then
        match p.client with
        | some c => Except.ok (revertClientInvalidation kv c)
        | none => Except.ok (false, kv)
      else Except.ok (false, kv)

/-- Embedding of `invalidate` (part_002 lines 365-385): a string argument
invalidates the token scope; otherwise the params are dispatched on
`jwtiParamExists` (not truthiness), and when neither `user` nor `client`
exists the method resolves without performing any store operation. -/
def invalidate (kv : KV) (arg : JwtiArg) (now : Int) : Except Unit KV :=
  match arg with
  | .token s => createTokenInvalidation kv s now
  | .params p =>
      if jwtiParamExists p.user && jwtiParamExists p.client then
        match p.user, p.client with
        | some u, some c => createUserClientInvalidation kv u c now
        | _, _ => Except.ok kv
      else if jwtiParamExists p.user then
        match p.user with
        | some u => createUserInvalidation kv u now
        | none => Except.ok kv
      else if jwtiParamExists p.client then
        match p.client with
        | some c => createClientInvalidation kv c now
        | none => Except.ok kv
      else Except.ok kv

/-- Contents of the `jwti` header object composed by `createJwtiHeader`
(part_002 lines 237-243) and read back by `verify` (lines 460-464): optional
`user` and `client` identifiers and an optional precise issuance instant. -/
structure JwtiHeaderData where
  user : Option Identifier
  client : Option Identifier
  iat : Option Int

/-- Embedding of `createJwtiHeader` (part_002 lines 237-243). -/
def createJwtiHeader (user client : Option Identifier) (iat : Option Int) : JwtiHeaderData :=
  ⟨user, client, iat⟩

/-- Header object: a JavaScript object with arbitrary fields (`base`) and an
optional `jwti` field.  Used both for the caller-supplied `options.header`
and for the header handed to `jwt.sign`: `Object.assign` applied to
`options?.header` or a fresh empty object (part_002 line 330) returns its
target, which is the caller's header object itself when one was supplied. -/
structure HeaderObj where
  base : List (String × Json)
  jwti : Option JwtiHeaderData

/-- Options object accepted by `sign`: the `JwtiParams` fields plus the other
`jsonwebtoken` options (`header` is the caller-supplied header object when
present, `rest` stands for the remaining signing options, which `sign`
forwards untouched). -/
structure SignOptions where
  user : Option Identifier
  client : Option Identifier
  precise : Option Bool
  header : Option HeaderObj
  rest : List (String × Json)

/-- Result of `sign`: the header embedded into the token (when a `jwti` header
was composed at all) and the caller's options object as `sign` leaves it
(`none` when no options object was supplied). -/
structure SignResult where
  header : Option HeaderObj
  options : Option SignOptions

/-- Embedding of `sign` (part_002 lines 298-344).  `payloadIsObject` is
`typeof payload === 'object'`; `now` is `+new Date() / 1000` at the moment of
the call.  With no options object (absent or a callback), the jwti header is
attached only when an instant was stamped.  With an options object, `sign`
composes the jwti metadata and assigns it onto the caller's header object
with `Object.assign` (line 330); `Object.assign` mutates its target in
place, so when the caller supplied `options.header` that very object gains
the `jwti` property — the returned options reflect this through their
`header` field — and `sign` then deletes the `user`, `client` and `precise`
properties from the caller's options object (lines 334-336). -/
def sign (payloadIsObject : Bool) (options : Option SignOptions) (now : Int) : SignResult :=
  match options with
  | none =>
      let iat := if !payloadIsObject then some now else none
      match iat with
      | none => ⟨none, none⟩
      | some t => ⟨some ⟨[], some (createJwtiHeader none none (some t))⟩, none⟩
  | some opts =>
      let user := opts.user
      let client := opts.client
      let precise := opts.precise.getD false
      let iat := if precise || !payloadIsObject then some now else none
      let jwtiHeader := createJwtiHeader user client iat
      let header : HeaderObj :=
        { opts.header.getD ⟨[], none⟩ with jwti := some jwtiHeader }
      let opts2 := { opts with
        user := (none : Option Identifier)
        client := (none : Option Identifier)
        precise := (none : Option Bool)
        header := opts.header.map fun h => { h with jwti := some jwtiHeader } }
      ⟨some header, some opts2⟩

/-- Scope tag carried by an `InvalidatedTokenError`
(`src/errors.ts`, `InvalidationType`). -/
inductive InvalidationType where
  | token
  | userClient
  | user
  | client
deriving Repr, DecidableEq

/-- Embedding of `InvalidatedTokenError` (`src/errors.ts`): the scope tag and
the invalidation instant that caused the decision. -/
structure InvalidatedTokenError where
  invalidationType : InvalidationType
  invalidationTime : Int
deriving Repr, DecidableEq

/-- Token as `verify` sees it after the signature check: the raw token string
(the token-scope store key), the embedded `jwti` header if any, and the native
`iat` claim of the decoded payload if any. -/
structure Token where
  tok : String
  jwti : Option JwtiHeaderData
  nativeIat : Option Int

/-- Truthiness of a JavaScript object value.  `verify` computes
`header.jwti  or else an empty object` (part_002 line 460), which always
yields an object, and every object is truthy in JavaScript, so the guard
`if (!jwtiHeader)` at line 466 can never hold: this function is constantly
`true`, which makes the foreign-token branch below unreachable. -/
def jsObjectTruthy (_h : JwtiHeaderData) : Bool := true

/-- Revocation test applied by each reachable check of `verify`
(part_002 lines 495, 509, 523, 535):
`invalid = invalidationTime && iat - invalidationTime < 0`, where a `null` or
`0` invalidation time is falsy. -/
def invalidFor (iat : Int) (invalidationTime : Option Int) : Bool :=
  match invalidationTime with
  | none => false
  | some v => if v = 0 then false else decide (iat - v < 0)

/-- Embedding of the branch of `verify` for tokens without a jwti header
(part_002 lines 466-484).  This branch is unreachable (see `jsObjectTruthy`);
note that its comparison `iat - invalidationTime > 0` is inverted with respect
to every reachable check. -/
def foreignTokenBranch (kv : KV) (tok : String) (iat : Option Int) :
    Except InvalidatedTokenError Unit :=
  let invalidationTime := getTokenInvalidationTime kv tok
  let invalid : Bool :=
    if jsTruthyNumOpt iat && jsTruthyNumOpt invalidationTime then
      decide (iat.getD 0 - invalidationTime.getD 0 > 0)
    else jsTruthyNumOpt invalidationTime
  if invalid then
    Except.error ⟨InvalidationType.token, invalidationTime.getD 0⟩
  else Except.ok ()

/-- Embedding of the user-plus-client check of `verify`
(part_002 lines 490-503): performed when both params exist (existence, not
truthiness); returns the error to be thrown, if any. -/
def userClientCheck (kv : KV) (user client : Option Identifier) (iat : Int) :
    Option InvalidatedTokenError :=
  match user, client with
  | some u, some c =>
      let it := getUserClientInvalidationTime kv u c
      if invalidFor iat it then some ⟨InvalidationType.userClient, it.getD 0⟩ else none
  | _, _ => none

/-- Embedding of the user check of `verify` (part_002 lines 505-517). -/
def userCheck (kv : KV) (user : Option Identifier) (iat : Int) :
    Option InvalidatedTokenError :=
  match user with
  | some u =>
      let it := getUserInvalidationTime kv u
      if invalidFor iat it then some ⟨InvalidationType.user, it.getD 0⟩ else none
  | none => none

/-- Embedding of the client check of `verify` (part_002 lines 519-531): note
that the source looks the client up through `getUserInvalidationTime`
(line 520), i.e. under the `user::` prefix. -/
def clientCheck (kv : KV) (client : Option Identifier) (iat : Int) :
    Option InvalidatedTokenError :=
  match client with
  | some c =>
      let it := getUserInvalidationTime kv c
      if invalidFor iat it then some ⟨InvalidationType.client, it.getD 0⟩ else none
  | none => none

/-- Embedding of the final token check of `verify` (part_002 lines 533-541),
which the source runs unconditionally. -/
def tokenCheck (kv : KV) (tok : String) (iat : Int) : Option InvalidatedTokenError :=
  let it := getTokenInvalidationTime kv tok
  if invalidFor iat it then some ⟨InvalidationType.token, it.getD 0⟩ else none

/-- First error wins: sequential composition of the `throw`-or-continue checks
of `verify`. -/
def firstErr (e : Option InvalidatedTokenError) (k : Except InvalidatedTokenError Unit) :
    Except InvalidatedTokenError Unit :=
  match e with
  | some err => Except.error err
  | none => k

/-- Embedding of `verify` (part_002 lines 442-543) after the signature check
(the signing service is external; a signature failure propagates before any of
this logic runs).  The jwti header defaults to an empty object, `iat` is the
jwti instant falling back to the native claim (line 464), an unusable instant
returns the payload valid (lines 486-488), and the four checks run in order,
the token-scope one unconditionally. -/
def verify (kv : KV) (t : Token) : Except InvalidatedTokenError Unit :=
  let jwtiHeader := t.jwti.getD ⟨none, none, none⟩
  let user := jwtiHeader.user
  let client := jwtiHeader.client
  let iat := jsNumOr jwtiHeader.iat t.nativeIat
  if jsObjectTruthy jwtiHeader = false then
    foreignTokenBranch kv t.tok iat
  else
    match iat with
    | none => Except.ok ()
    | some q =>
        if q = 0 then Except.ok ()
        else
          firstErr (userClientCheck kv user client q)
            (firstErr (userCheck kv user q)
              (firstErr (clientCheck kv client q)
                (firstErr (tokenCheck kv t.tok q) (Except.ok ()))))

/-- Proposition that `verify` rejected the token with a revocation error. -/
def revoked (r : Except InvalidatedTokenError Unit) : Prop :=
  ∃ e, r = Except.error e

/-- Store containing exactly one invalidation record, fault-free. -/
def kvOne (k : String) (v : Int) : KV :=
  ⟨fun k2 => if k2 = k then some v else none, fun _ => false, fun _ => false, fun _ => false⟩

/-- Fault-free store: no key raises a store error on any operation. -/
def noFaults (kv : KV) : Prop :=
  (∀ k, kv.getFail k = false) ∧ (∀ k, kv.setFail k = false) ∧ (∀ k, kv.delFail k = false)

/-- Concrete store used as input below: one user-scope record under
`user::u` with value `7`, whose key raises a store error on `del` (all other
operations succeed). -/
def kvDelFaultEx : KV :=
  ⟨fun k => if k = "user::u" then some 7 else none,
   fun _ => false, fun _ => false, fun k => decide (k = "user::u")⟩

theorem getTokenInvalidationTime_kvOne (k : String) (v : Int) (tok : String) :
    getTokenInvalidationTime (kvOne k v) tok = if tok = k then some v else none := rfl

theorem getUserInvalidationTime_kvOne (k : String) (v : Int) (u : Identifier) :
    getUserInvalidationTime (kvOne k v) u =
      if userInvalidationKey u = k then some v else none := rfl

theorem getClientInvalidationTime_kvOne (k : String) (v : Int) (c : Identifier) :
    getClientInvalidationTime (kvOne k v) c =
      if clientInvalidationKey c = k then some v else none := rfl

theorem getUserClientInvalidationTime_kvOne (k : String) (v : Int) (u c : Identifier) :
    getUserClientInvalidationTime (kvOne k v) u c =
      if userClientInvalidationKey u c = k then some v else none := rfl

theorem invalidFor_some_ne (q v : Int) (hv : v ≠ 0) :
    invalidFor q (some v) = decide (q < v) := by
  simp [invalidFor, hv, sub_neg]

theorem invalidFor_single_miss (q v : Int) (hlt : ¬ q < v) (b : Prop) [Decidable b] :
    invalidFor q (if b then some v else none) = false := by
  by_cases hb : b
  · by_cases hv0 : v = 0 <;> simp [hb, hv0, invalidFor, sub_neg, hlt]
  · simp [hb, invalidFor]

theorem verify_unfold (kv : KV) (tok : String) (hu hc : Option Identifier)
    (hiat native : Option Int) :
    verify kv ⟨tok, some ⟨hu, hc, hiat⟩, native⟩ =
      match jsNumOr hiat native with
      | none => Except.ok ()
      | some q =>
          if q = 0 then Except.ok ()
          else
            firstErr (userClientCheck kv hu hc q)
              (firstErr (userCheck kv hu q)
                (firstErr (clientCheck kv hc q)
                  (firstErr (tokenCheck kv tok q) (Except.ok ())))) := rfl

theorem verify_unfold_none (kv : KV) (tok : String) (native : Option Int) :
    verify kv ⟨tok, none, native⟩ =
      match native with
      | none => Except.ok ()
      | some q =>
          if q = 0 then Except.ok ()
          else
            firstErr (userClientCheck kv none none q)
              (firstErr (userCheck kv none q)
                (firstErr (clientCheck kv none q)
                  (firstErr (tokenCheck kv tok q) (Except.ok ())))) := rfl

theorem getTokenInvalidationTime_of_allNone (kv : KV) (hd : ∀ k, kv.data k = none)
    (tok : String) : getTokenInvalidationTime kv tok = none := by
  unfold getTokenInvalidationTime redisGet
  by_cases h : kv.getFail tok <;> simp [h, hd]

theorem getUserInvalidationTime_of_allNone (kv : KV) (hd : ∀ k, kv.data k = none)
    (u : Identifier) : getUserInvalidationTime kv u = none := by
  unfold getUserInvalidationTime redisGet
  by_cases h : kv.getFail (userInvalidationKey u) <;> simp [h, hd]

theorem getUserClientInvalidationTime_of_allNone (kv : KV) (hd : ∀ k, kv.data k = none)
    (u c : Identifier) : getUserClientInvalidationTime kv u c = none := by
  unfold getUserClientInvalidationTime redisGet
  by_cases h : kv.getFail (userClientInvalidationKey u c) <;> simp [h, hd]

theorem verify_of_allNone (kv : KV) (hd : ∀ k, kv.data k = none) (t : Token) :
    verify kv t = Except.ok () := by
  obtain ⟨tok, jw, native⟩ := t
  have huc := getUserClientInvalidationTime_of_allNone kv hd
  have hu := getUserInvalidationTime_of_allNone kv hd
  have ht := getTokenInvalidationTime_of_allNone kv hd
  cases jw with
  | none =>
      rw [verify_unfold_none]
      cases native with
      | none => rfl
      | some q =>
          by_cases hq : q = 0
          · simp [hq]
          · simp [hq, firstErr, userClientCheck, userCheck, clientCheck, tokenCheck,
              ht, invalidFor]
  | some h =>
      obtain ⟨husr, hcl, hiat⟩ := h
      rw [verify_unfold]
      cases hjs : jsNumOr hiat native with
      | none => rfl
      | some q =>
          by_cases hq : q = 0
          · simp [hq]
          · cases husr <;> cases hcl <;>
              simp [hq, firstErr, userClientCheck, userCheck, clientCheck, tokenCheck,
                ht, hu, huc, invalidFor]

theorem revertTokenInvalidation_hit (kv : KV) (s : String) (v : Int)
    (hget : kv.getFail s = false) (hdata : kv.data s = some v)
    (hdel : kv.delFail s = false) :
    revertTokenInvalidation kv s = Except.ok (true, eraseKey kv s) := by
  simp [revertTokenInvalidation, redisGet, redisDel, hget, hdata, hdel, Bind.bind, Except.bind]

theorem revertTokenInvalidation_miss (kv : KV) (s : String)
    (hget : kv.getFail s = false) (hdata : kv.data s = none) :
    revertTokenInvalidation kv s = Except.ok (false, kv) := by
  simp [revertTokenInvalidation, redisGet, hget, hdata, Bind.bind, Except.bind]

theorem revertUserInvalidation_hit (kv : KV) (u : Identifier) (v : Int)
    (hget : kv.getFail (userInvalidationKey u) = false)
    (hdata : kv.data (userInvalidationKey u) = some v) (hv : v ≠ 0)
    (hdel : kv.delFail (userInvalidationKey u) = false) :
    revertUserInvalidation kv u = (true, eraseKey kv (userInvalidationKey u)) := by
  simp [revertUserInvalidation, getUserInvalidationTime, redisGet, hget, hdata,
    jsTruthyNumOpt, hv, removeUserInvalidation, redisDel, hdel]

theorem revertUserInvalidation_miss (kv : KV) (u : Identifier)
    (hget : kv.getFail (userInvalidationKey u) = false)
    (hdata : kv.data (userInvalidationKey u) = none) :
    revertUserInvalidation kv u = (false, kv) := by
  simp [revertUserInvalidation, getUserInvalidationTime, redisGet, hget, hdata, jsTruthyNumOpt]

theorem revertClientInvalidation_hit (kv : KV) (c : Identifier) (v : Int)
    (hget : kv.getFail (clientInvalidationKey c) = false)
    (hdata : kv.data (clientInvalidationKey c) = some v) (hv : v ≠ 0)
    (hdel : kv.delFail (clientInvalidationKey c) = false) :
    revertClientInvalidation kv c = (true, eraseKey kv (clientInvalidationKey c)) := by
  simp [revertClientInvalidation, getClientInvalidationTime, redisGet, hget, hdata,
    jsTruthyNumOpt, hv, removeClientInvalidation, redisDel, hdel]

theorem revertClientInvalidation_miss (kv : KV) (c : Identifier)
    (hget : kv.getFail (clientInvalidationKey c) = false)
    (hdata : kv.data (clientInvalidationKey c) = none) :
    revertClientInvalidation kv c = (false, kv) := by
  simp [revertClientInvalidation, getClientInvalidationTime, redisGet, hget, hdata,
    jsTruthyNumOpt]

theorem revertUserClientInvalidation_hit (kv : KV) (u c : Identifier) (v : Int)
    (hget : kv.getFail (userClientInvalidationKey u c) = false)
    (hdata : kv.data (userClientInvalidationKey u c) = some v) (hv : v ≠ 0)
    (hdel : kv.delFail (userClientInvalidationKey u c) = false) :
    revertUserClientInvalidation kv u c =
      (true, eraseKey kv (userClientInvalidationKey u c)) := by
  simp [revertUserClientInvalidation, getUserClientInvalidationTime, redisGet, hget, hdata,
    jsTruthyNumOpt, hv, removeUserClientInvalidation, redisDel, hdel]

theorem revertUserClientInvalidation_miss (kv : KV) (u c : Identifier)
    (hget : kv.getFail (userClientInvalidationKey u c) = false)
    (hdata : kv.data (userClientInvalidationKey u c) = none) :
    revertUserClientInvalidation kv u c = (false, kv) := by
  simp [revertUserClientInvalidation, getUserClientInvalidationTime, redisGet, hget, hdata,
    jsTruthyNumOpt]

theorem revert_params_user (kv : KV) (u : Identifier) (hu : jsTruthyIdentifier u = true) :
    revert kv (.params ⟨some u, none⟩) = Except.ok (revertUserInvalidation kv u) := by
  simp [revert, jsTruthyIdOpt, hu]

theorem revert_params_client (kv : KV) (c : Identifier) (hc : jsTruthyIdentifier c = true) :
    revert kv (.params ⟨none, some c⟩) = Except.ok (revertClientInvalidation kv c) := by
  simp [revert, jsTruthyIdOpt, hc]

theorem revert_params_userClient (kv : KV) (u c : Identifier)
    (hu : jsTruthyIdentifier u = true) (hc : jsTruthyIdentifier c = true) :
    revert kv (.params ⟨some u, some c⟩) =
      Except.ok (revertUserClientInvalidation kv u c) := by
  simp [revert, jsTruthyIdOpt, hu, hc]

/-- C1: for a token whose metadata carries a usable (nonzero numeric) issuance
instant, a single invalidation record of the matching scope (user+client,
user, client, or token) makes `verify` throw the revocation error if and only
if the record's invalidation instant is strictly greater than the token's
issuance instant; in particular, equal instants leave the token valid. -/
theorem jwti_C1_strict_after_issuance (q v : Int) (hq : q ≠ 0) (hv : v ≠ 0) :
    (∀ (u c : Identifier) (tok : String) (native : Option Int),
      revoked (verify (kvOne (userClientInvalidationKey u c) v)
        ⟨tok, some ⟨some u, some c, some q⟩, native⟩) ↔ q < v) ∧
    (∀ (u : Identifier) (tok : String) (native : Option Int),
      revoked (verify (kvOne (userInvalidationKey u) v)
        ⟨tok, some ⟨some u, none, some q⟩, native⟩) ↔ q < v) ∧
    (∀ (c : Identifier) (tok : String) (native : Option Int),
      revoked (verify (kvOne (clientInvalidationKey c) v)
        ⟨tok, some ⟨none, some c, some q⟩, native⟩) ↔ q < v) ∧
    (∀ (tok : String) (native : Option Int),
      revoked (verify (kvOne tok v)
        ⟨tok, some ⟨none, none, some q⟩, native⟩) ↔ q < v) := by
  refine ⟨?_, ?_, ?_, ?_⟩
  · intro u c tok native
    by_cases hlt : q < v
    · have h : verify (kvOne (userClientInvalidationKey u c) v)
          ⟨tok, some ⟨some u, some c, some q⟩, native⟩ =
          Except.error ⟨InvalidationType.userClient, v⟩ := by
        simp [verify, jsObjectTruthy, jsNumOr, hq, firstErr, userClientCheck,
          getUserClientInvalidationTime_kvOne, invalidFor_some_ne, hv, hlt]
      exact iff_of_true ⟨_, h⟩ hlt
    · have h : verify (kvOne (userClientInvalidationKey u c) v)
          ⟨tok, some ⟨some u, some c, some q⟩, native⟩ = Except.ok () := by
        simp [verify, jsObjectTruthy, jsNumOr, hq, firstErr, userClientCheck, userCheck,
          clientCheck, tokenCheck, getUserClientInvalidationTime_kvOne,
          getUserInvalidationTime_kvOne, getTokenInvalidationTime_kvOne,
          invalidFor_single_miss q v hlt, invalidFor_some_ne, hv, hlt]
      exact iff_of_false (fun hr => by
        obtain ⟨e, he⟩ := hr; rw [h] at he; exact Except.noConfusion he) hlt
  · intro u tok native
    by_cases hlt : q < v
    · have h : verify (kvOne (userInvalidationKey u) v)
          ⟨tok, some ⟨some u, none, some q⟩, native⟩ =
          Except.error ⟨InvalidationType.user, v⟩ := by
        simp [verify, jsObjectTruthy, jsNumOr, hq, firstErr, userClientCheck, userCheck,
          getUserInvalidationTime_kvOne, invalidFor_some_ne, hv, hlt]
      exact iff_of_true ⟨_, h⟩ hlt
    · have h : verify (kvOne (userInvalidationKey u) v)
          ⟨tok, some ⟨some u, none, some q⟩, native⟩ = Except.ok () := by
        simp [verify, jsObjectTruthy, jsNumOr, hq, firstErr, userClientCheck, userCheck,
          clientCheck, tokenCheck, getUserInvalidationTime_kvOne,
          getTokenInvalidationTime_kvOne, invalidFor_single_miss q v hlt,
          invalidFor_some_ne, hv, hlt]
      exact iff_of_false (fun hr => by
        obtain ⟨e, he⟩ := hr; rw [h] at he; exact Except.noConfusion he) hlt
  · intro c tok native
    by_cases hlt : q < v
    · have h : verify (kvOne (clientInvalidationKey c) v)
          ⟨tok, some ⟨none, some c, some q⟩, native⟩ =
          Except.error ⟨InvalidationType.client, v⟩ := by
        simp [verify, jsObjectTruthy, jsNumOr, hq, firstErr, userClientCheck, userCheck,
          clientCheck, getUserInvalidationTime_kvOne, clientInvalidationKey,
          userInvalidationKey, invalidFor_some_ne, hv, hlt]
      exact iff_of_true ⟨_, h⟩ hlt
    · have h : verify (kvOne (clientInvalidationKey c) v)
          ⟨tok, some ⟨none, some c, some q⟩, native⟩ = Except.ok () := by
        simp [verify, jsObjectTruthy, jsNumOr, hq, firstErr, userClientCheck, userCheck,
          clientCheck, tokenCheck, getUserInvalidationTime_kvOne,
          getTokenInvalidationTime_kvOne, clientInvalidationKey, userInvalidationKey,
          invalidFor_single_miss q v hlt, invalidFor_some_ne, hv, hlt]
      exact iff_of_false (fun hr => by
        obtain ⟨e, he⟩ := hr; rw [h] at he; exact Except.noConfusion he) hlt
  · intro tok native
    by_cases hlt : q < v
    · have h : verify (kvOne tok v) ⟨tok, some ⟨none, none, some q⟩, native⟩ =
          Except.error ⟨InvalidationType.token, v⟩ := by
        simp [verify, jsObjectTruthy, jsNumOr, hq, firstErr, userClientCheck, userCheck,
          clientCheck, tokenCheck, getTokenInvalidationTime_kvOne,
          invalidFor_some_ne, hv, hlt]
      exact iff_of_true ⟨_, h⟩ hlt
    · have h : verify (kvOne tok v) ⟨tok, some ⟨none, none, some q⟩, native⟩ =
          Except.ok () := by
        simp [verify, jsObjectTruthy, jsNumOr, hq, firstErr, userClientCheck, userCheck,
          clientCheck, tokenCheck, getTokenInvalidationTime_kvOne,
          invalidFor_single_miss q v hlt, invalidFor_some_ne, hv, hlt]
      exact iff_of_false (fun hr => by
        obtain ⟨e, he⟩ := hr; rw [h] at he; exact Except.noConfusion he) hlt

/-- Witness for C1: at issuance instant 5 and a user+client record at
instant 9, `verify` throws precisely because 5 is less than 9. -/
theorem jwti_C1_witness :
    revoked (verify (kvOne (userClientInvalidationKey (.str "a") (.str "b")) 9)
      ⟨"t", some ⟨some (.str "a"), some (.str "b"), some 5⟩, none⟩) ↔ (5 : Int) < 9 :=
  (jwti_C1_strict_after_issuance 5 9 (by decide) (by decide)).1 (.str "a") (.str "b") "t" none

/-- C2: the source derives the client-scope store key with the `user::`
prefix, not the `client::` prefix the specification prescribes: the key
coincides with the user-scope key of the same identifier on both the write
path (`createClientInvalidation`) and the lookup path
(`getClientInvalidationTime`), and for the client `"mobile"` the record lands
under `user::mobile` while `client::mobile` stays empty. -/
theorem jwti_C2_client_prefix_bug :
    (∀ c : Identifier, clientInvalidationKey c = userInvalidationKey c) ∧
    (∀ (kv : KV) (c : Identifier),
      getClientInvalidationTime kv c = getUserInvalidationTime kv c) ∧
    clientInvalidationKey (.str "mobile") = "user::mobile" ∧
    specClientInvalidationKey (.str "mobile") = "client::mobile" ∧
    createClientInvalidation emptyKV (.str "mobile") 5 =
      Except.ok (setKey emptyKV "user::mobile" 5) ∧
    (setKey emptyKV "user::mobile" 5).data "client::mobile" = none :=
  ⟨fun _ => rfl, fun _ _ => rfl, rfl, rfl, rfl, by decide⟩

/-- Counterexample to C3: the token `tFoo` carries metadata with user `u`
(issuance instant 5) and there is no user record, only a token-scope record at
instant 10; `verify` nevertheless throws the token-scope revocation error, so
the token-scope record is consulted, and is the cause of the error, for a
token whose metadata carries a user. -/
theorem jwti_C3_counterexample :
    verify (kvOne "tFoo" 10) ⟨"tFoo", some ⟨some (.str "u"), none, some 5⟩, none⟩ =
      Except.error ⟨InvalidationType.token, 10⟩ := rfl

/-- C3 (amended): the final token-scope check of `verify` runs
unconditionally, after whichever scoped checks apply; with a single token
record at instant `v` and a token carrying user metadata (whose user key
differs from the token string), `verify` throws the token-scope error exactly
when `v` is strictly greater than the issuance instant. -/
theorem jwti_C3_token_check_unconditional (q v : Int) (hq : q ≠ 0) (hv : v ≠ 0)
    (u : Identifier) (tok : String) (hne : tok ≠ userInvalidationKey u)
    (native : Option Int) :
    (verify (kvOne tok v) ⟨tok, some ⟨some u, none, some q⟩, native⟩ =
      Except.error ⟨InvalidationType.token, v⟩) ↔ q < v := by
  by_cases hlt : q < v
  · have h : verify (kvOne tok v) ⟨tok, some ⟨some u, none, some q⟩, native⟩ =
        Except.error ⟨InvalidationType.token, v⟩ := by
      simp [verify, jsObjectTruthy, jsNumOr, hq, firstErr, userClientCheck, userCheck,
        clientCheck, tokenCheck, getUserInvalidationTime_kvOne,
        getTokenInvalidationTime_kvOne, Ne.symm hne, invalidFor, invalidFor_some_ne,
        hv, sub_neg, hlt]
    exact iff_of_true h hlt
  · have h : verify (kvOne tok v) ⟨tok, some ⟨some u, none, some q⟩, native⟩ =
        Except.ok () := by
      simp [verify, jsObjectTruthy, jsNumOr, hq, firstErr, userClientCheck, userCheck,
        clientCheck, tokenCheck, getUserInvalidationTime_kvOne,
        getTokenInvalidationTime_kvOne, invalidFor_single_miss q v hlt,
        invalidFor_some_ne, hv, hlt]
    exact iff_of_false (fun he => by rw [h] at he; exact Except.noConfusion he) hlt

/-- Witness for C3's amended theorem at user `u`, token string `tFoo`,
instants 5 and 10. -/
theorem jwti_C3_witness :
    (verify (kvOne "tFoo" 10) ⟨"tFoo", some ⟨some (.str "u"), none, some 5⟩, none⟩ =
      Except.error ⟨InvalidationType.token, 10⟩) ↔ (5 : Int) < 10 :=
  jwti_C3_token_check_unconditional 5 10 (by decide) (by decide) (.str "u") "tFoo"
    (by decide) none

/-- Counterexample to C4: for tokens with no embedded jwti metadata the
branch the claim describes is unreachable.  With a token-scope record at
instant 10: a metadata-less token with no native `iat` at all is accepted
(the claim says the mere presence of the record must reject it), a
metadata-less token issued at 5 with a record at 3 (invalidation older than
issuance, hence not newer-or-equal) is accepted (the claim says it must be
rejected), and a metadata-less token issued at 5 with a record at 10 (record
newer-or-equal) is rejected (the claim says it must be accepted). -/
theorem jwti_C4_counterexample :
    (kvOne "t" 10).data "t" = some 10 ∧
    verify (kvOne "t" 10) ⟨"t", none, none⟩ = Except.ok () ∧
    verify (kvOne "t" 3) ⟨"t", none, some 5⟩ = Except.ok () ∧
    verify (kvOne "t" 10) ⟨"t", none, some 5⟩ =
      Except.error ⟨InvalidationType.token, 10⟩ :=
  ⟨rfl, rfl, rfl, rfl⟩

/-- C4 (amended): the metadata-absent branch of `verify` is dead code because
the extracted jwti header defaults to an empty object; a token with no
embedded metadata flows through the main path, so without a usable native
`iat` it is always accepted, whatever the store holds, and with a usable
native `iat` `q` and a single token-scope record at `v` it is rejected
exactly when `v` is strictly greater than `q`. -/
theorem jwti_C4_foreign_token_behavior :
    (∀ (kv : KV) (tok : String), verify kv ⟨tok, none, none⟩ = Except.ok ()) ∧
    (∀ q v : Int, q ≠ 0 → v ≠ 0 → ∀ tok : String,
      revoked (verify (kvOne tok v) ⟨tok, none, some q⟩) ↔ q < v) := by
  constructor
  · intro kv tok; rfl
  · intro q v hq hv tok
    by_cases hlt : q < v
    · have h : verify (kvOne tok v) ⟨tok, none, some q⟩ =
          Except.error ⟨InvalidationType.token, v⟩ := by
        simp [verify_unfold_none, jsNumOr, hq, firstErr, userClientCheck, userCheck,
          clientCheck, tokenCheck, getTokenInvalidationTime_kvOne,
          invalidFor_some_ne, hv, hlt]
      exact iff_of_true ⟨_, h⟩ hlt
    · have h : verify (kvOne tok v) ⟨tok, none, some q⟩ = Except.ok () := by
        simp [verify_unfold_none, jsNumOr, hq, firstErr, userClientCheck, userCheck,
          clientCheck, tokenCheck, getTokenInvalidationTime_kvOne,
          invalidFor_single_miss q v hlt, invalidFor_some_ne, hv, hlt]
      exact iff_of_false (fun hr => by
        obtain ⟨e, he⟩ := hr; rw [h] at he; exact Except.noConfusion he) hlt

/-- Witness for C4's amended theorem: token record at 10, native issuance
instant 5. -/
theorem jwti_C4_witness :
    revoked (verify (kvOne "t" 10) ⟨"t", none, some 5⟩) ↔ (5 : Int) < 10 :=
  jwti_C4_foreign_token_behavior.2 5 10 (by decide) (by decide) "t"

/-- Counterexample to C5: for the identity consisting of user `0` (a falsy
but existing identifier), `invalidate` records an invalidation, yet an
immediate `revert` for that same identity returns `false` and leaves the
record in place, because `invalidate` dispatches on null/undefined existence
while `revert` dispatches on JavaScript truthiness. -/
theorem jwti_C5_counterexample :
    invalidate emptyKV (.params ⟨some (.num 0), none⟩) 5 =
      Except.ok (setKey emptyKV (userInvalidationKey (.num 0)) 5) ∧
    (setKey emptyKV (userInvalidationKey (.num 0)) 5).data
      (userInvalidationKey (.num 0)) = some 5 ∧
    revert (setKey emptyKV (userInvalidationKey (.num 0)) 5)
      (.params ⟨some (.num 0), none⟩) =
      Except.ok (false, setKey emptyKV (userInvalidationKey (.num 0)) 5) :=
  ⟨rfl, by simp [setKey], rfl⟩

/-- C5 (amended): starting from an empty store and a nonzero invalidation
instant, `invalidate` followed immediately by `revert` returns `true` for a
token identity and for every user, client, or user+client identity whose
identifiers are JS-truthy, and a subsequent `verify` of any token against the
resulting store succeeds; falsy identifiers (the number 0, the empty string)
are excluded, as the counterexample shows `revert` rejects them. -/
theorem jwti_C5_roundtrip (now : Int) (hnow : now ≠ 0) :
    (∀ s : String,
      invalidate emptyKV (.token s) now = Except.ok (setKey emptyKV s now) ∧
      revert (setKey emptyKV s now) (.token s) =
        Except.ok (true, eraseKey (setKey emptyKV s now) s) ∧
      ∀ t : Token, verify (eraseKey (setKey emptyKV s now) s) t = Except.ok ()) ∧
    (∀ u : Identifier, jsTruthyIdentifier u = true →
      invalidate emptyKV (.params ⟨some u, none⟩) now =
        Except.ok (setKey emptyKV (userInvalidationKey u) now) ∧
      revert (setKey emptyKV (userInvalidationKey u) now) (.params ⟨some u, none⟩) =
        Except.ok (true, eraseKey (setKey emptyKV (userInvalidationKey u) now)
          (userInvalidationKey u)) ∧
      ∀ t : Token, verify (eraseKey (setKey emptyKV (userInvalidationKey u) now)
        (userInvalidationKey u)) t = Except.ok ()) ∧
    (∀ c : Identifier, jsTruthyIdentifier c = true →
      invalidate emptyKV (.params ⟨none, some c⟩) now =
        Except.ok (setKey emptyKV (clientInvalidationKey c) now) ∧
      revert (setKey emptyKV (clientInvalidationKey c) now) (.params ⟨none, some c⟩) =
        Except.ok (true, eraseKey (setKey emptyKV (clientInvalidationKey c) now)
          (clientInvalidationKey c)) ∧
      ∀ t : Token, verify (eraseKey (setKey emptyKV (clientInvalidationKey c) now)
        (clientInvalidationKey c)) t = Except.ok ()) ∧
    (∀ u c : Identifier, jsTruthyIdentifier u = true → jsTruthyIdentifier c = true →
      invalidate emptyKV (.params ⟨some u, some c⟩) now =
        Except.ok (setKey emptyKV (userClientInvalidationKey u c) now) ∧
      revert (setKey emptyKV (userClientInvalidationKey u c) now)
        (.params ⟨some u, some c⟩) =
        Except.ok (true, eraseKey (setKey emptyKV (userClientInvalidationKey u c) now)
          (userClientInvalidationKey u c)) ∧
      ∀ t : Token, verify (eraseKey (setKey emptyKV (userClientInvalidationKey u c) now)
        (userClientInvalidationKey u c)) t = Except.ok ()) := by
  have hdataset : ∀ (k : String) (v : Int), (setKey emptyKV k v).data k = some v := by
    intro k v; simp [setKey]
  have herase : ∀ (k : String) (v : Int) (k2 : String),
      (eraseKey (setKey emptyKV k v) k).data k2 = none := by
    intro k v k2
    by_cases h : k2 = k <;> simp [eraseKey, setKey, emptyKV, h]
  refine ⟨?_, ?_, ?_, ?_⟩
  · intro s
    refine ⟨rfl, ?_, fun t => verify_of_allNone _ (herase s now) t⟩
    exact revertTokenInvalidation_hit _ s now rfl (hdataset s now) rfl
  · intro u hu
    refine ⟨rfl, ?_, fun t => verify_of_allNone _ (herase (userInvalidationKey u) now) t⟩
    rw [revert_params_user _ u hu,
      revertUserInvalidation_hit _ u now rfl (hdataset _ now) hnow rfl]
  · intro c hc
    refine ⟨rfl, ?_, fun t => verify_of_allNone _ (herase (clientInvalidationKey c) now) t⟩
    rw [revert_params_client _ c hc,
      revertClientInvalidation_hit _ c now rfl (hdataset _ now) hnow rfl]
  · intro u c hu hc
    refine ⟨rfl, ?_,
      fun t => verify_of_allNone _ (herase (userClientInvalidationKey u c) now) t⟩
    rw [revert_params_userClient _ u c hu hc,
      revertUserClientInvalidation_hit _ u c now rfl (hdataset _ now) hnow rfl]

/-- Witness for C5's amended theorem: user `alice`, instant 3. -/
theorem jwti_C5_witness :
    revert (setKey emptyKV (userInvalidationKey (.str "alice")) 3)
      (.params ⟨some (.str "alice"), none⟩) =
      Except.ok (true, eraseKey (setKey emptyKV (userInvalidationKey (.str "alice")) 3)
        (userInvalidationKey (.str "alice"))) :=
  (((jwti_C5_roundtrip 3 (by decide)).2.1 (.str "alice") (by decide))).2.1

/-- Counterexample to C6: the store holds a user-scope record for `u` whose
stored value is `0`; the record is present, yet `revert` returns `false` and
does not remove it, because the looked-up value is tested for JavaScript
truthiness and `0` is falsy. -/
theorem jwti_C6_counterexample :
    (setKey emptyKV (userInvalidationKey (.str "u")) 0).data
      (userInvalidationKey (.str "u")) = some 0 ∧
    revert (setKey emptyKV (userInvalidationKey (.str "u")) 0)
      (.params ⟨some (.str "u"), none⟩) =
      Except.ok (false, setKey emptyKV (userInvalidationKey (.str "u")) 0) :=
  ⟨by simp [setKey], rfl⟩

/-- C6 (amended): on a fault-free store, `revert` looks the identity up
first, removes the record and returns `true` when the lookup is JS-truthy,
and returns `false` leaving the store untouched when no record is present;
for the scoped identities this requires the identifiers to be truthy and the
stored value to be nonzero (a present record with value `0` is treated as
absent but is not removed, as the counterexample shows), while for a token
identity any present record is reverted. -/
theorem jwti_C6_revert_contract (kv : KV) (hf : noFaults kv) :
    (∀ (s : String) (v : Int), kv.data s = some v →
      revert kv (.token s) = Except.ok (true, eraseKey kv s)) ∧
    (∀ s : String, kv.data s = none → revert kv (.token s) = Except.ok (false, kv)) ∧
    (∀ (u : Identifier) (v : Int), jsTruthyIdentifier u = true → v ≠ 0 →
      kv.data (userInvalidationKey u) = some v →
      revert kv (.params ⟨some u, none⟩) =
        Except.ok (true, eraseKey kv (userInvalidationKey u))) ∧
    (∀ u : Identifier, jsTruthyIdentifier u = true →
      kv.data (userInvalidationKey u) = none →
      revert kv (.params ⟨some u, none⟩) = Except.ok (false, kv)) ∧
    (∀ (c : Identifier) (v : Int), jsTruthyIdentifier c = true → v ≠ 0 →
      kv.data (clientInvalidationKey c) = some v →
      revert kv (.params ⟨none, some c⟩) =
        Except.ok (true, eraseKey kv (clientInvalidationKey c))) ∧
    (∀ c : Identifier, jsTruthyIdentifier c = true →
      kv.data (clientInvalidationKey c) = none →
      revert kv (.params ⟨none, some c⟩) = Except.ok (false, kv)) ∧
    (∀ (u c : Identifier) (v : Int), jsTruthyIdentifier u = true →
      jsTruthyIdentifier c = true → v ≠ 0 →
      kv.data (userClientInvalidationKey u c) = some v →
      revert kv (.params ⟨some u, some c⟩) =
        Except.ok (true, eraseKey kv (userClientInvalidationKey u c))) ∧
    (∀ u c : Identifier, jsTruthyIdentifier u = true → jsTruthyIdentifier c = true →
      kv.data (userClientInvalidationKey u c) = none →
      revert kv (.params ⟨some u, some c⟩) = Except.ok (false, kv)) := by
  obtain ⟨hget, hset, hdel⟩ := hf
  refine ⟨?_, ?_, ?_, ?_, ?_, ?_, ?_, ?_⟩
  · intro s v hdata
    exact revertTokenInvalidation_hit kv s v (hget s) hdata (hdel s)
  · intro s hdata
    exact revertTokenInvalidation_miss kv s (hget s) hdata
  · intro u v hu hv hdata
    rw [revert_params_user kv u hu,
      revertUserInvalidation_hit kv u v (hget _) hdata hv (hdel _)]
  · intro u hu hdata
    rw [revert_params_user kv u hu, revertUserInvalidation_miss kv u (hget _) hdata]
  · intro c v hc hv hdata
    rw [revert_params_client kv c hc,
      revertClientInvalidation_hit kv c v (hget _) hdata hv (hdel _)]
  · intro c hc hdata
    rw [revert_params_client kv c hc, revertClientInvalidation_miss kv c (hget _) hdata]
  · intro u c v hu hc hv hdata
    rw [revert_params_userClient kv u c hu hc,
      revertUserClientInvalidation_hit kv u c v (hget _) hdata hv (hdel _)]
  · intro u c hu hc hdata
    rw [revert_params_userClient kv u c hu hc,
      revertUserClientInvalidation_miss kv u c (hget _) hdata]

/-- Witness for C6's amended theorem: on the empty store, reverting the token
`t` finds nothing, returns `false` and changes nothing. -/
theorem jwti_C6_witness :
    revert emptyKV (.token "t") = Except.ok (false, emptyKV) :=
  (jwti_C6_revert_contract emptyKV
    ⟨fun _ => rfl, fun _ => rfl, fun _ => rfl⟩).2.1 "t" rfl

/-- Counterexample to C7: on a store whose `del` fails for the key
`user::u`, reverting the user-scope record for `u` does not propagate the
store error: the call completes, reports `true`, and silently leaves the
record in place. -/
theorem jwti_C7_counterexample :
    kvDelFaultEx.data (userInvalidationKey (.str "u")) = some 7 ∧
    kvDelFaultEx.delFail (userInvalidationKey (.str "u")) = true ∧
    revert kvDelFaultEx (.params ⟨some (.str "u"), none⟩) =
      Except.ok (true, kvDelFaultEx) :=
  ⟨rfl, rfl, rfl⟩

/-- C7 (amended): store errors during the invalidation-time lookups are
swallowed (the lookup yields `null`), and store errors during `invalidate`'s
writes propagate; on the revert side, only the token-scope revert propagates
its `del` failure, while the user-, client- and user+client-scope record
removals swallow `del` failures, still reporting `true` with the record left
in place. -/
theorem jwti_C7_error_propagation :
    (∀ (kv : KV) (tok : String), kv.getFail tok = true →
      getTokenInvalidationTime kv tok = none) ∧
    (∀ (kv : KV) (u : Identifier), kv.getFail (userInvalidationKey u) = true →
      getUserInvalidationTime kv u = none) ∧
    (∀ (kv : KV) (s : String) (now : Int), kv.setFail s = true →
      invalidate kv (.token s) now = Except.error ()) ∧
    (∀ (kv : KV) (u : Identifier) (now : Int), kv.setFail (userInvalidationKey u) = true →
      invalidate kv (.params ⟨some u, none⟩) now = Except.error ()) ∧
    (∀ (kv : KV) (s : String) (v : Int), kv.getFail s = false → kv.data s = some v →
      kv.delFail s = true → revert kv (.token s) = Except.error ()) ∧
    (∀ (kv : KV) (u : Identifier) (v : Int), jsTruthyIdentifier u = true →
      kv.getFail (userInvalidationKey u) = false →
      kv.data (userInvalidationKey u) = some v → v ≠ 0 →
      kv.delFail (userInvalidationKey u) = true →
      revert kv (.params ⟨some u, none⟩) = Except.ok (true, kv)) := by
  refine ⟨?_, ?_, ?_, ?_, ?_, ?_⟩
  · intro kv tok h; simp [getTokenInvalidationTime, redisGet, h]
  · intro kv u h; simp [getUserInvalidationTime, redisGet, h]
  · intro kv s now h
    simp [invalidate, createTokenInvalidation, redisSet, h]
  · intro kv u now h
    simp [invalidate, jwtiParamExists, createUserInvalidation, redisSet, h]
  · intro kv s v hget hdata hdel
    simp [revert, revertTokenInvalidation, redisGet, redisDel, hget, hdata, hdel,
      Bind.bind, Except.bind]
  · intro kv u v hu hget hdata hv hdel
    rw [revert_params_user kv u hu]
    simp [revertUserInvalidation, getUserInvalidationTime, redisGet, hget, hdata,
      jsTruthyNumOpt, hv, removeUserInvalidation, redisDel, hdel]

/-- Witness for C7's amended theorem: a token-scope revert whose `del` fails
propagates the store error (here the raw token string happens to be the
faulty key of the fixture store). -/
theorem jwti_C7_witness :
    revert kvDelFaultEx (.token "user::u") = Except.error () :=
  jwti_C7_error_propagation.2.2.2.2.1 kvDelFaultEx "user::u" 7 rfl rfl rfl

/-- Counterexample to C8: two semantically-equal structured identifiers (the
same two field/value pairs, inserted in opposite orders, hence a permutation
of one another) are canonicalized by `JSON.stringify` to different strings,
so they map to different user-scope store keys. -/
theorem jwti_C8_counterexample :
    (JsonObj.toList (JsonObj.cons "a" (.num 1) (.cons "b" (.num 2) .nil))).Perm
      (JsonObj.toList (JsonObj.cons "b" (.num 2) (.cons "a" (.num 1) .nil))) ∧
    userInvalidationKey (.obj (.obj (.cons "a" (.num 1) (.cons "b" (.num 2) .nil)))) ≠
      userInvalidationKey (.obj (.obj (.cons "b" (.num 2) (.cons "a" (.num 1) .nil)))) :=
  ⟨List.Perm.swap ("b", Json.num 2) ("a", Json.num 1) [], by decide⟩

/-- C8 (amended): canonicalization is `JSON.stringify`, which is a
deterministic function of the identifier and is used by both the write path
and the lookup path — invalidating a user and looking the same identifier up
finds the record — but it preserves field insertion order, so two
semantically-equal objects with different insertion orders map to different
keys, as the counterexample shows. -/
theorem jwti_C8_canonicalization (kv : KV) (u : Identifier) (now : Int)
    (hset : kv.setFail (userInvalidationKey u) = false)
    (hget : kv.getFail (userInvalidationKey u) = false) :
    createUserInvalidation kv u now = Except.ok (setKey kv (userInvalidationKey u) now) ∧
    getUserInvalidationTime (setKey kv (userInvalidationKey u) now) u = some now := by
  constructor
  · simp [createUserInvalidation, redisSet, hset]
  · simp [getUserInvalidationTime, redisGet, setKey, hget]

/-- Witness for C8's amended theorem: the structured user with fields `a` and
`b` written and read back on the empty store. -/
theorem jwti_C8_witness :
    createUserInvalidation emptyKV
        (.obj (.obj (JsonObj.cons "a" (.num 1) (.cons "b" (.num 2) .nil)))) 3 =
      Except.ok (setKey emptyKV
        (userInvalidationKey
          (.obj (.obj (JsonObj.cons "a" (.num 1) (.cons "b" (.num 2) .nil))))) 3) ∧
    getUserInvalidationTime
        (setKey emptyKV
          (userInvalidationKey
            (.obj (.obj (JsonObj.cons "a" (.num 1) (.cons "b" (.num 2) .nil))))) 3)
        (.obj (.obj (JsonObj.cons "a" (.num 1) (.cons "b" (.num 2) .nil)))) = some 3 :=
  jwti_C8_canonicalization emptyKV
    (.obj (.obj (JsonObj.cons "a" (.num 1) (.cons "b" (.num 2) .nil)))) 3 rfl rfl

/-- C9: when `sign` is called with an options object, it deletes the `user`,
`client` and `precise` properties from the caller's options object, so after
the call those three fields are absent from it; the remaining signing options
are forwarded untouched, while the caller's `header` object, when one was
supplied, is the in-place-mutated target of `Object.assign` and has gained
the `jwti` metadata property. -/
theorem jwti_C9_sign_mutates_options (payloadIsObject : Bool) (opts : SignOptions)
    (now : Int) :
    (sign payloadIsObject (some opts) now).options =
      some { opts with
        user := none
        client := none
        precise := none
        header := opts.header.map fun h =>
          { h with jwti := some (createJwtiHeader opts.user opts.client
              (if opts.precise.getD false || !payloadIsObject then some now
               else none)) } } := rfl

/-- C10: `invalidate` with a params object that has neither `user` nor
`client` resolves without any store operation and leaves the store unchanged,
and `revert` with such a params object returns `false` without touching the
store. -/
theorem jwti_C10_empty_params_noop (kv : KV) (now : Int) :
    invalidate kv (.params ⟨none, none⟩) now = Except.ok kv ∧
    revert kv (.params ⟨none, none⟩) = Except.ok (false, kv) :=
  ⟨rfl, rfl⟩
